import Mathlib

/-!
Shallow embedding of `app.py` from the simpleAnkiWeb repository: a thin
Flask front-end proxying flashcard review actions to a locally running
AnkiConnect service.  Pure request-scoped logic (response-envelope
validation, credential check, session guard, card sorting, media
inlining, route handlers) is translated into executable Lean
definitions; the network layer and the web framework are modelled by
passing the parsed upstream response (resp. the submitted form fields
and the session contents) as explicit arguments.
-/

/-- JSON values, as produced by Python `json.load` (numbers restricted to
integers, which suffices for the data this app handles). -/
inductive Json where
  | null : Json
  | bool : Bool → Json
  | num : Int → Json
  | str : String → Json
  | arr : List Json → Json
  | obj : List (String × Json) → Json

/-- A parsed JSON object: a Python dict from string keys to values.
Keys are unique after `json.load`, so first-occurrence lookup below is
exact. -/
def JsonObj : Type := List (String × Json)

/-- Key lookup in a parsed JSON object (Python `d[k]` / `k in d`). -/
def JsonObj.find : JsonObj → String → Option Json
  | [], _ => none
  | (k', v) :: rest, k => if k = k' then some v else JsonObj.find rest k

/-- Python truthiness of a JSON value, as tested by `if response["error"]:`
and `session.get("logged_in")`:  `None`, `False`, `0`, `""`, `[]` and
`{}` are falsy, everything else truthy. -/
def Json.truthy : Json → Bool
  | .null => false
  | .bool b => b
  | .num n => n != 0
  | .str s => s != ""
  | .arr xs => !xs.isEmpty
  | .obj fs => !fs.isEmpty

/-- Failure conditions raised by `invoke` (all are `RuntimeError` in the
source; the constructor records which branch raised). -/
inductive InvokeErr where
  | unreachable : String → InvokeErr
  | invalidResponse : InvokeErr
  | ankiError : Json → InvokeErr

/-- `invoke` (src/app.py lines 56-80), from the point where the upstream
response has been parsed: raise `"Invalid response from AnkiConnect"`
when either the `error` or the `result` key is missing, raise carrying
`response["error"]` when that value is truthy, and otherwise return
`response["result"]` verbatim. -/
def invoke (response : JsonObj) : Except InvokeErr Json :=
  match response.find "error", response.find "result" with
  | some e, some r => if e.truthy then .error (.ankiError e) else .ok r
  | some _, none => .error .invalidResponse
  | none, _ => .error .invalidResponse

/-- The session cookie contents: a dict of string keys to JSON-like
values (Flask sessions are JSON-serialized). -/
def Session : Type := List (String × Json)

/-- `session.get("logged_in")` being truthy, the guard condition of
`login_required` (src/app.py lines 96-102). -/
def sessionLoggedIn (sess : Session) : Bool :=
  (Json.truthy ((JsonObj.find sess "logged_in").getD Json.null))

/-- Result of running a guarded route: either the wrapped handler's
response, or a redirect to the named endpoint. -/
inductive RouteResult (A : Type) where
  | handled : A → RouteResult A
  | redirect : String → RouteResult A

/-- `login_required` (src/app.py lines 96-102): redirect to the login
page when the session lacks a truthy `logged_in` marker, otherwise
invoke the wrapped handler. -/
def login_required {A : Type} (sess : Session) (handler : A) : RouteResult A :=
  if sessionLoggedIn sess then .handled handler else .redirect "login"

/-- The configured credential pair (`APP_USERNAME` / `APP_PASSWORD`). -/
structure LoginCfg where
  username : String
  password : String

/-- Response of the `/login` POST handler. -/
inductive LoginResult where
  | redirect : String → LoginResult
  | errorPage : String → Nat → LoginResult

/-- `/login` POST (src/app.py lines 120-137 with the 401 handler at
108-110): compare the submitted username and password against the
configured pair (`hmac.compare_digest` is string equality up to
timing); on match clear the session, set `logged_in` and redirect to
`index`; on mismatch `abort(401)`, rendered as plain text
`"Unauthorized"` with status 401, leaving the session untouched. -/
def login_post (cfg : LoginCfg) (username password : String) (sess : Session) :
    LoginResult × Session :=
  if username = cfg.username ∧ password = cfg.password then
    (.redirect "index", [("logged_in", Json.bool true)])
  else
    (.errorPage "Unauthorized" 401, sess)

/-- A card object as consumed by `custom_sort` and the card routes:
`cardId` and `due` are read with `card[...]` (always present in
AnkiConnect's `cardsInfo` output), `reps` with `card.get("reps", 0)`
(modelled as optional). Timestamps are integers; `datetime.now().timestamp()`
is passed in as the `now` parameter. -/
structure Card where
  cardId : Int
  reps : Option Int
  due : Int

/-- `custom_sort` (src/app.py lines 160-164): the sort key of a card —
bucket 0 when the card has at least one repetition and its due time is
strictly in the past, bucket 1 otherwise; second component the due
timestamp. -/
def custom_sort (now : Int) (card : Card) : Nat × Int :=
  if 1 ≤ card.reps.getD 0 ∧ card.due < now then (0, card.due) else (1, card.due)

/-- Strict lexicographic order on sort keys: how Python compares the
tuples returned by `custom_sort`. -/
def keyLt (a b : Nat × Int) : Prop :=
  a.1 < b.1 ∨ (a.1 = b.1 ∧ a.2 < b.2)

/-- Boolean ≤ on sort keys, used by the stable sort. -/
def keyLe (a b : Nat × Int) : Bool :=
  a.1 < b.1 || (a.1 == b.1 && a.2 ≤ b.2)

/-- `cards.sort(key=custom_sort)` (src/app.py lines 173 and 183):
stable sort of the `cardsInfo` list by the `custom_sort` key. -/
def sortCards (now : Int) (cards : List Card) : List Card :=
  cards.mergeSort (fun a b => keyLe (custom_sort now a) (custom_sort now b))

/-- Python exceptions reachable from the card route handlers. -/
inductive PyErr where
  | indexError : PyErr
  | keyError : PyErr
  | typeError : PyErr

/-- `/getNextCard` (src/app.py lines 177-184), from the point where the
adapter has returned the `cardsInfo` list for the deck query: sort by
`custom_sort` and return `cards[0]["cardId"]`; indexing an empty list
raises `IndexError`, routed to the 500 error path. -/
def get_next_card (now : Int) (cards : List Card) : Except PyErr Int :=
  match sortCards now cards with
  | [] => .error .indexError
  | c :: _ => .ok c.cardId

/-- `/getCards` (src/app.py lines 167-174), same adapter inputs: sort
and return the list of `cardId`s. -/
def get_cards (now : Int) (cards : List Card) : List Int :=
  (sortCards now cards).map Card.cardId

/-- Python dict assignment `d[k] = v`: overwrite the binding in place
when the key exists (keeping its position), append otherwise. -/
def JsonObj.set : JsonObj → String → Json → JsonObj
  | [], k, v => [(k, v)]
  | (k', v') :: rest, k, v =>
      if k = k' then (k, v) :: rest else (k', v') :: JsonObj.set rest k v

/-- `/getCardContent` (src/app.py lines 187-194), from the point where
the adapter has returned the `cardsInfo` list `rs` for the requested
card, and with the media inliner abstracted as `inliner`: read
`rs[0]["question"]` and `rs[0]["answer"]` (an empty list raises
`IndexError`, a missing key `KeyError`), pass each through the inliner
and assign the results back into `rs[0]`, returning the whole list. -/
def get_card_content (inliner : String → String) (rs : List JsonObj) :
    Except PyErr (List JsonObj) :=
  match rs with
  | [] => .error .indexError
  | c :: rest =>
    match c.find "question" with
    | some (Json.str q) =>
      let c1 := c.set "question" (Json.str (inliner q))
      match c1.find "answer" with
      | some (Json.str a) => .ok (c1.set "answer" (Json.str (inliner a)) :: rest)
      | some _ => .error .typeError
      | none => .error .keyError
    | some _ => .error .typeError
    | none => .error .keyError

/-!
The media inliner (src/app.py lines 85-93) is
`re.sub(r'<img[^>]+src="([^"]+)"[^>]*>', img_to_base64, answer)`.
Strings are embedded as `List Char`.  The pattern is matched by a
backtracking matcher specialised to this regex: literal `<img`, one or
more non-`>` characters (greedy, longest alternative first), literal
`src="`, a captured run of one or more non-`"` characters (greedy; the
following literal `"` makes the maximal run the only option), literal
`"`, zero or more non-`>` characters (greedy; likewise forced maximal
by the trailing literal), literal `>`.
-/

/-- Match `([^"]+)"[^>]*>` at the head of `s`, returning the capture and
the remainder after the match. -/
def afterSrc (s : List Char) : Option (List Char × List Char) :=
  let cap := s.takeWhile (fun c => c ≠ '"')
  if cap.isEmpty then none
  else
    match s.drop cap.length with
    | '"' :: t =>
      match t.drop (t.takeWhile (fun c => c ≠ '>')).length with
      | '>' :: rest => some (cap, rest)
      | _ => none
    | _ => none

/-- Match `src="` literally at the head of `s`, then `afterSrc`. -/
def srcHere (s : List Char) : Option (List Char × List Char) :=
  match s with
  | 's' :: 'r' :: 'c' :: '=' :: '"' :: t => afterSrc t
  | _ => none

/-- Continue the greedy `[^>]+` (at least one character already
consumed): prefer extending the repetition by one more non-`>`
character, and on failure fall back to matching `src="` at the current
position — Python's longest-first backtracking for a greedy `+`. -/
def tryFrom (s : List Char) : Option (List Char × List Char) :=
  match s with
  | [] => none
  | c :: t => (if c ≠ '>' then tryFrom t else none) <|> srcHere (c :: t)

/-- Match the whole pattern `<img[^>]+src="([^"]+)"[^>]*>` at the head
of `s`: literal `<img`, one mandatory non-`>` character, then
`tryFrom`. -/
def matchAt (s : List Char) : Option (List Char × List Char) :=
  match s with
  | '<' :: 'i' :: 'm' :: 'g' :: c :: t => if c = '>' then none else tryFrom t
  | _ => none

/-- The replacement text built by `img_to_base64`:
`<img src="data:image/jpeg;base64,{data}" />` where `data` is the
adapter's base64 payload for the captured filename. -/
def replacement (data : List Char) : List Char :=
  "<img src=\"data:image/jpeg;base64,".data ++ data ++ "\" />".data

/-- The `re.sub` scan: at each position try the pattern; on a match
emit the replacement (fetching the captured filename through the
adapter, recorded in the returned log) and resume after the match,
otherwise copy one character and advance.  `fuel` bounds the number of
steps; every step consumes at least one character, so `s.length` fuel
is always enough (`subAux_fuel_irrel` below). -/
def subAux (fetch : List Char → List Char) : Nat → List Char → List Char × List (List Char)
  | 0, s => (s, [])
  | n + 1, s =>
    match matchAt s with
    | some (cap, rest) =>
      let out := subAux fetch n rest
      (replacement (fetch cap) ++ out.1, cap :: out.2)
    | none =>
      match s with
      | [] => ([], [])
      | c :: t =>
        let out := subAux fetch n t
        (c :: out.1, out.2)

/-- `replace_img_with_base64` (src/app.py lines 85-93), with the
adapter call `invoke("retrieveMediaFile", filename=...)` abstracted as
`fetch`: returns the substituted string together with the list of
filenames fetched, in order. -/
def replace_img_with_base64 (fetch : List Char → List Char) (answer : List Char) :
    List Char × List (List Char) :=
  subAux fetch answer.length answer

/-- Does any suffix of `s` start with a match of the img-tag pattern,
i.e. does `s` contain a substring matching it? -/
def hasMatch : List Char → Bool
  | [] => false
  | c :: t => (matchAt (c :: t)).isSome || hasMatch t

/-!
Theorems, one per claim.
-/

/-- Claim C1: `custom_sort` induces a total order on cards — for any
two cards exactly one of "sorts strictly before", "same key", "sorts
strictly after" holds of their sort keys; every card with `reps ≥ 1`
and a due timestamp strictly in the past gets bucket 0 and sorts
strictly before every card not meeting that condition, regardless of
either due timestamp; and within a common bucket the order is
ascending by due timestamp. -/
theorem custom_sort_total_order (now : Int) (a b : Card) :
    (keyLt (custom_sort now a) (custom_sort now b) ∨ custom_sort now a = custom_sort now b ∨
      keyLt (custom_sort now b) (custom_sort now a)) ∧
    ¬(keyLt (custom_sort now a) (custom_sort now b) ∧ custom_sort now a = custom_sort now b) ∧
    ¬(keyLt (custom_sort now a) (custom_sort now b) ∧
      keyLt (custom_sort now b) (custom_sort now a)) ∧
    ¬(custom_sort now a = custom_sort now b ∧ keyLt (custom_sort now b) (custom_sort now a)) ∧
    ((1 ≤ a.reps.getD 0 ∧ a.due < now) → ¬(1 ≤ b.reps.getD 0 ∧ b.due < now) →
      (custom_sort now a).1 = 0 ∧ keyLt (custom_sort now a) (custom_sort now b)) ∧
    ((custom_sort now a).1 = (custom_sort now b).1 →
      (keyLt (custom_sort now a) (custom_sort now b) ↔ a.due < b.due)) := by
  refine ⟨?_, ?_, ?_, ?_, ?_, ?_⟩ <;>
    simp only [custom_sort, keyLt] <;>
    split_ifs <;>
    simp_all [Prod.ext_iff] <;>
    omega

/-- Claim C1, witness: a reviewed overdue card (3 reps, due 50 < now
100) gets bucket 0 and sorts before a new card (no reps) due at 10. -/
theorem custom_sort_total_order_witness :
    (custom_sort 100 ⟨1, some 3, 50⟩).1 = 0 ∧
    keyLt (custom_sort 100 ⟨1, some 3, 50⟩) (custom_sort 100 ⟨2, none, 10⟩) :=
  (custom_sort_total_order 100 ⟨1, some 3, 50⟩ ⟨2, none, 10⟩).2.2.2.2.1
    (by constructor <;> decide) (by decide)

/-- Claim C2, counterexample: the empty string is a non-null `error`
value, yet `invoke` on `{"error": "", "result": 7}` returns the result
instead of failing — `if response["error"]:` tests Python truthiness,
not nullness. -/
theorem invoke_error_counterexample :
    Json.str "" ≠ Json.null ∧
    invoke [("error", Json.str ""), ("result", Json.num 7)] = .ok (Json.num 7) :=
  ⟨fun h => Json.noConfusion h, rfl⟩

/-- Claim C2 (amended): for every upstream response carrying both an
`error` and a `result` field whose `error` value is truthy (in
particular any non-empty error string, such as `"bad query"`), `invoke`
fails with a condition carrying exactly that error value. -/
theorem invoke_truthy_error_fails (response : JsonObj) (e r : Json)
    (he : JsonObj.find response "error" = some e)
    (hr : JsonObj.find response "result" = some r)
    (ht : e.truthy = true) :
    invoke response = .error (.ankiError e) := by
  simp [invoke, he, hr, ht]

/-- Claim C2, witness: the spec's own example — on
`{"error": "bad query", "result": null}` `invoke` fails carrying
`"bad query"`. -/
theorem invoke_truthy_error_fails_witness :
    invoke [("error", Json.str "bad query"), ("result", Json.null)] =
      .error (.ankiError (Json.str "bad query")) :=
  invoke_truthy_error_fails _ (Json.str "bad query") Json.null rfl rfl rfl

/-- Claim C3: for every upstream response with `error` equal to null
and a `result` field present, `invoke` returns the `result` value
verbatim. -/
theorem invoke_null_error_returns_result (response : JsonObj) (r : Json)
    (he : JsonObj.find response "error" = some Json.null)
    (hr : JsonObj.find response "result" = some r) :
    invoke response = .ok r := by
  simp [invoke, he, hr, Json.truthy]

/-- Claim C3, witness: on `{"error": null, "result": [1,2,3]}` `invoke`
returns `[1,2,3]`. -/
theorem invoke_null_error_returns_result_witness :
    invoke [("error", Json.null), ("result", Json.arr [Json.num 1, Json.num 2, Json.num 3])] =
      .ok (Json.arr [Json.num 1, Json.num 2, Json.num 3]) :=
  invoke_null_error_returns_result _ _ rfl rfl

/-- Claim C4: for every upstream response object missing the `error`
key or the `result` key, `invoke` fails with the invalid-response
condition (and hence returns no value). -/
theorem invoke_missing_key_invalid (response : JsonObj)
    (h : JsonObj.find response "error" = none ∨ JsonObj.find response "result" = none) :
    invoke response = .error .invalidResponse := by
  rcases h with h | h
  · simp [invoke, h]
  · cases he : JsonObj.find response "error" <;> simp [invoke, he, h]

/-- Claim C4, witness: a response with only an `error` key (missing
`result`) is rejected as invalid. -/
theorem invoke_missing_key_invalid_witness :
    invoke [("error", Json.null)] = .error .invalidResponse :=
  invoke_missing_key_invalid _ (Or.inr rfl)

/-- Claim C5: for every submitted credential pair differing from the
configured pair, the `/login` POST handler returns the plain-text
`"Unauthorized"` 401 response and leaves the session exactly as it
was — in particular the `logged_in` flag is unchanged. -/
theorem login_wrong_credentials (cfg : LoginCfg) (u p : String) (sess : Session)
    (h : ¬(u = cfg.username ∧ p = cfg.password)) :
    login_post cfg u p sess = (.errorPage "Unauthorized" 401, sess) ∧
    sessionLoggedIn (login_post cfg u p sess).2 = sessionLoggedIn sess := by
  constructor <;> simp [login_post, h]

/-- Claim C5, witness: right username, wrong password. -/
theorem login_wrong_credentials_witness :
    login_post ⟨"admin", "pw"⟩ "admin" "wrong" [] = (.errorPage "Unauthorized" 401, []) :=
  (login_wrong_credentials ⟨"admin", "pw"⟩ "admin" "wrong" [] (by simp)).1

/-- Claim C6: the `/login` POST handler on the correct credential pair
resets the session to exactly the `logged_in` marker and redirects;
the guard runs the wrapped handler precisely when the session has the
marker set and otherwise redirects (not an error) to the login page —
so after a successful login, protected routes succeed without
re-authenticating. -/
theorem login_correct_and_guard (cfg : LoginCfg) (sess s : Session) {A : Type} (handler : A) :
    login_post cfg cfg.username cfg.password sess =
      (.redirect "index", [("logged_in", Json.bool true)]) ∧
    (sessionLoggedIn s = true → login_required s handler = .handled handler) ∧
    (sessionLoggedIn s = false → login_required s handler = .redirect "login") ∧
    login_required [("logged_in", Json.bool true)] handler = .handled handler := by
  refine ⟨by simp [login_post], fun h => by simp [login_required, h],
    fun h => by simp [login_required, h],
    by simp [login_required, sessionLoggedIn, JsonObj.find, Json.truthy]⟩

/-- Claim C6, witness: the session produced by a successful login
passes the guard, which runs the wrapped handler. -/
theorem login_correct_and_guard_witness :
    login_required [("logged_in", Json.bool true)] (0 : Nat) = .handled 0 :=
  (login_correct_and_guard ⟨"u", "p"⟩ [] [("logged_in", Json.bool true)] (0 : Nat)).2.1 rfl

/-- Claim C7: when the adapter returns zero matching cards for the deck
query, `/getNextCard` fails with an `IndexError` (empty-list indexing,
routed to the error path) and returns no `cardId` — in particular no
200 response with an empty body. -/
theorem get_next_card_empty_fails (now : Int) :
    get_next_card now [] = .error .indexError ∧
    ∀ v, get_next_card now [] ≠ .ok v := by
  have h : get_next_card now [] = .error .indexError := by
    simp [get_next_card, sortCards]
  exact ⟨h, fun v hv => by rw [h] at hv; exact Except.noConfusion hv⟩

/-- Claim C7, witness: the failure at a concrete clock value. -/
theorem get_next_card_empty_fails_witness :
    get_next_card 0 [] = .error .indexError :=
  (get_next_card_empty_fails 0).1

/-- Claim C8: `replace_img_with_base64` rewrites each matched
`<img ... src="...">` tag into an inline data URI with the hardcoded
JPEG mime type and the base64 data fetched for the captured filename —
on `<p><img src="pic.jpg"></p>` with the adapter returning `"ZZZ"` it
yields `<p><img src="data:image/jpeg;base64,ZZZ" /></p>` having
fetched exactly `pic.jpg`; the second and third conjuncts show, for an
arbitrary adapter, the one-tag fragment and a two-tag fragment whose
every tag is replaced, with both filenames fetched in order. -/
theorem replace_img_inlines_tags (fetch : List Char → List Char) :
    replace_img_with_base64 (fun _ => "ZZZ".data) "<p><img src=\"pic.jpg\"></p>".data =
      ("<p><img src=\"data:image/jpeg;base64,ZZZ\" /></p>".data, ["pic.jpg".data]) ∧
    replace_img_with_base64 fetch "<p><img src=\"pic.jpg\"></p>".data =
      ("<p><img src=\"data:image/jpeg;base64,".data ++
        ((fetch "pic.jpg".data ++ "\" />".data) ++ "</p>".data),
        ["pic.jpg".data]) ∧
    replace_img_with_base64 fetch "<a><img src=\"x\">mid<img src=\"y.png\"></a>".data =
      ("<a><img src=\"data:image/jpeg;base64,".data ++
        ((fetch "x".data ++ "\" />".data) ++
          ("mid<img src=\"data:image/jpeg;base64,".data ++
            ((fetch "y.png".data ++ "\" />".data) ++ "</a>".data))),
        ["x".data, "y.png".data]) :=
  ⟨rfl, rfl, rfl⟩

/-- With enough fuel, the `re.sub` scan of a string containing no match
of the img-tag pattern copies it unchanged and fetches nothing. -/
lemma subAux_no_match (fetch : List Char → List Char) :
    ∀ (n : Nat) (s : List Char), s.length ≤ n → hasMatch s = false →
      subAux fetch n s = (s, []) := by
  intro n
  induction n with
  | zero =>
    intro s _ _
    rfl
  | succ n ih =>
    intro s hs hm
    cases s with
    | nil => rfl
    | cons c t =>
      simp only [hasMatch, Bool.or_eq_false_iff] at hm
      have h1 : matchAt (c :: t) = none := Option.not_isSome_iff_eq_none.mp (by simp [hm.1])
      have h2 : hasMatch t = false := hm.2
      simp only [subAux, h1]
      rw [ih t (Nat.le_of_succ_le_succ (by simpa using hs)) h2]

/-- Claim C9: on every input with no substring matching the img-tag
pattern, `replace_img_with_base64` returns the input unchanged and
performs no adapter calls. -/
theorem replace_img_identity (fetch : List Char → List Char) (s : List Char)
    (h : hasMatch s = false) :
    replace_img_with_base64 fetch s = (s, []) :=
  subAux_no_match fetch s.length s (Nat.le_refl _) h

/-- Claim C9, witness: an img-free fragment is returned verbatim with
an empty fetch log. -/
theorem replace_img_identity_witness :
    replace_img_with_base64 (fun l => l) "no tags here".data = ("no tags here".data, []) :=
  replace_img_identity (fun l => l) "no tags here".data rfl

/-- Assigning key `kset` does not disturb lookups of any other key. -/
lemma JsonObj.find_set_ne (o : JsonObj) (kset kq : String) (v : Json) (h : kq ≠ kset) :
    JsonObj.find (JsonObj.set o kset v) kq = JsonObj.find o kq := by
  induction o with
  | nil => simp [JsonObj.set, JsonObj.find, h]
  | cons kv rest ih =>
    obtain ⟨k0, v0⟩ := kv
    simp only [JsonObj.set]
    by_cases hk : kset = k0
    · subst hk
      simp [JsonObj.find, h]
    · simp only [if_neg hk, JsonObj.find, ih]

/-- Claim C10: `/getCardContent` returns the adapter's card object with
only `question` and `answer` rewritten by the inliner; every other
field reads back exactly as the adapter returned it, and the remaining
cards of the `cardsInfo` list are returned untouched. -/
theorem get_card_content_frame (inliner : String → String) (c : JsonObj)
    (rest : List JsonObj) (q a : String)
    (hq : JsonObj.find c "question" = some (Json.str q))
    (ha : JsonObj.find c "answer" = some (Json.str a)) :
    get_card_content inliner (c :: rest) =
      .ok ((JsonObj.set (JsonObj.set c "question" (Json.str (inliner q)))
              "answer" (Json.str (inliner a))) :: rest) ∧
    ∀ k, k ≠ "question" → k ≠ "answer" →
      JsonObj.find (JsonObj.set (JsonObj.set c "question" (Json.str (inliner q)))
          "answer" (Json.str (inliner a))) k = JsonObj.find c k := by
  have ha1 : JsonObj.find (JsonObj.set c "question" (Json.str (inliner q))) "answer" =
      some (Json.str a) := by
    rw [JsonObj.find_set_ne _ _ _ _ (by decide)]
    exact ha
  constructor
  · simp [get_card_content, hq, ha1]
  · intro k hk1 hk2
    rw [JsonObj.find_set_ne _ _ _ _ hk2, JsonObj.find_set_ne _ _ _ _ hk1]

/-- Claim C10, witness: on a card with a `cardId` field, inlining
rewrites `question` and `answer` and leaves `cardId` reading back
unchanged. -/
theorem get_card_content_frame_witness :
    get_card_content (fun s => s ++ "!") [[("cardId", Json.num 5),
        ("question", Json.str "q"), ("answer", Json.str "a")]] =
      .ok [[("cardId", Json.num 5), ("question", Json.str "q!"), ("answer", Json.str "a!")]] ∧
    JsonObj.find [("cardId", Json.num 5), ("question", Json.str "q!"),
        ("answer", Json.str "a!")] "cardId" = some (Json.num 5) := by
  have h := get_card_content_frame (fun s => s ++ "!")
    [("cardId", Json.num 5), ("question", Json.str "q"), ("answer", Json.str "a")] [] "q" "a"
    rfl rfl
  exact ⟨h.1, rfl⟩
